import Mathlib

/-!
Verification of the audio-classification core in `src/main.py`.

Modelling conventions:
* Floating-point sample values and thresholds are idealized as exact
  rationals (`ℚ`); numpy reductions (`np.mean`, `np.max`, `np.clip`) are
  given directly as list operations.
* The external numeric-library primitives that the design notes in the spec
  explicitly allow to be "sourced from an existing numeric/DSP library"
  (`np.exp`, `np.log`, the magnitude spectrum `np.abs (np.fft.fft ·)`, and
  the MFCC matrix produced by `librosa.feature.mfcc`) are abstracted as the
  fields of a `NumLib` structure; theorems quantify over every such library.
  `mfccMatrix` returns `Option` so that an internal librosa failure (a raised
  exception, caught by the `try/except` in `calculate_mfcc`) is `none`.
* `librosa.util.frame` and `librosa.feature.zero_crossing_rate` are
  modelled from the spec's Framer and ZeroCrossingEstimator contracts:
  framing yields frames of length `frame_length` at stride `hop_length`,
  trailing samples dropped, failure on non-positive parameters or a buffer
  shorter than one frame; the zero-crossing rate of a frame is the fraction
  of adjacent sample pairs whose signs differ.
* A Python exception that escapes a function is modelled as `none` in an
  `Option` result (`classify_audio` alone can raise, via `np.max` on an
  empty array); a caught exception is a `none` from a primitive, turned
  into the documented fallback value by the `match` that models `except`.
-/

namespace AudioClassification

/-- Arithmetic mean (np.mean) of a list of rationals: sum divided by
length (0 on `[]`, a case that never feeds a claim). -/
def mean (l : List ℚ) : ℚ := l.sum / (l.length : ℚ)

/-- Clamp (np.clip): `clip x lo hi` forces `x` into the interval
`[lo, hi]`. -/
def clip (x lo hi : ℚ) : ℚ := min (max x lo) hi

/-- Framing (librosa.util.frame, the spec's Framer §4.1): the list of
frames `audio[i*hop : i*hop + frame_length]` for
`i = 0 .. (len - frame_length)/hop`. Returns `none` (a raised
`ParameterError`, the spec's `InvalidParameters`) when `frame_length` or
`hop_length` is not positive or the buffer is shorter than one frame;
trailing samples that do not fill a frame are dropped. -/
def frame (audio : List ℚ) (frame_length hop_length : ℕ) : Option (List (List ℚ)) :=
  if frame_length = 0 ∨ hop_length = 0 ∨ audio.length < frame_length then none
  else some ((List.range ((audio.length - frame_length) / hop_length + 1)).map
    (fun i => (audio.drop (i * hop_length)).take frame_length))

/-- Numeric-library primitives used by the feature computations,
abstracted (spec §9: the FFT and mel-filterbank machinery may come from an
existing numeric library; only framing, the flatness formula and the
aggregation logic are original design). `mfccMatrix audio sr n_mfcc` is the
coefficient matrix of `librosa.feature.mfcc` as a list of `n_mfcc` rows, or
`none` when the library raises internally. -/
structure NumLib where
  exp : ℚ → ℚ
  log : ℚ → ℚ
  fftMag : List ℚ → List ℚ
  mfccMatrix : List ℚ → ℤ → ℕ → Option (List (List ℚ))

/-- Embedding of `calculate_mfcc` from `src/main.py`: the per-coefficient
time mean `np.mean(mfcc, axis=1)` of the MFCC matrix; on an internal
failure (the `except` branch) the zero vector of length `n_mfcc`. -/
def calculate_mfcc (lib : NumLib) (audio : List ℚ) (sr : ℤ) (n_mfcc : ℕ) : List ℚ :=
  match lib.mfccMatrix audio sr n_mfcc with
  | some m => m.map mean
  | none => List.replicate n_mfcc 0

/-- Per-frame spectral flatness computed inside the loop of
`calculate_lsfm`: magnitude spectrum `fft_frame = np.abs(np.fft.fft frame)`;
flatness 1.0 when `np.sum fft_frame < 1e-10`; otherwise
`np.clip (gm / (am + 1e-10)) 0 1` with
`gm = np.exp (np.mean (np.log (fft_frame + 1e-10)))` and
`am = np.mean fft_frame`. -/
def frameFlatness (lib : NumLib) (f : List ℚ) : ℚ :=
  let fft_frame := lib.fftMag f
  if fft_frame.sum < 1e-10 then 1
  else
    let gm := lib.exp (mean (fft_frame.map (fun x => lib.log (x + 1e-10))))
    let am := mean fft_frame
    clip (gm / (am + 1e-10)) 0 1

/-- Embedding of `calculate_lsfm` from `src/main.py`: mean of the per-frame
flatness values; 1.0 when the per-frame list is empty, and 1.0 when framing
raises (the `except` branch, reached whenever the buffer is shorter than
`frame_length` or a framing parameter is not positive). -/
def calculate_lsfm (lib : NumLib) (audio : List ℚ) (frame_length hop_length : ℕ) : ℚ :=
  match frame audio frame_length hop_length with
  | none => 1
  | some frames =>
      let lsfm := frames.map (frameFlatness lib)
      if lsfm = [] then 1 else mean lsfm

/-- Predicate for a zero crossing between two adjacent samples: their signs
differ (one is negative, the other is not). -/
def signDiffers (a b : ℚ) : Bool := decide ((a < 0 ∧ 0 ≤ b) ∨ (0 ≤ a ∧ b < 0))

/-- Zero-crossing rate of one frame: the fraction of adjacent sample
pairs whose signs differ (0 for a frame with no adjacent pair). -/
def zcrOfFrame (f : List ℚ) : ℚ :=
  (((f.zip f.tail).countP (fun p => signDiffers p.1 p.2) : ℕ) : ℚ) / ((f.length - 1 : ℕ) : ℚ)

/-- Modelled from the spec: `librosa.feature.zero_crossing_rate` is not part
of this repository; spec §4.3 specifies it as, per frame, the fraction of
adjacent sample pairs whose signs differ, over the frames of the Framer
(§4.1), whose failure on a short buffer the caller treats as zero frames. -/
def zero_crossing_rate (audio : List ℚ) (frame_length hop_length : ℕ) : Option (List ℚ) :=
  (frame audio frame_length hop_length).map (fun fs => fs.map zcrOfFrame)

/-- Embedding of `calculate_zcr` from `src/main.py`: `np.mean` of the
per-frame zero-crossing rates; 0.0 on an internal failure (the `except`
branch). -/
def calculate_zcr (audio : List ℚ) (frame_length hop_length : ℕ) : ℚ :=
  match zero_crossing_rate audio frame_length hop_length with
  | none => 0
  | some zcr => mean zcr

/-- Peak absolute sample value, `np.max (np.abs audio)`. The `[]` arm is
arbitrary: `np.max` of an empty array raises, which `classify_audio` models
separately before consulting `peak`. -/
def peak (audio : List ℚ) : ℚ :=
  match audio.map (fun x => |x|) with
  | [] => 0
  | y :: ys => ys.foldl max y

/-- Embedding of `classify_audio` from `src/main.py`. `none` models the
uncaught `ValueError` that `np.max` raises on an empty buffer. Otherwise:
the silence gate returns `"Noise"` when the peak absolute sample is below
`1e-6`; else the three features are computed (`n_mfcc` fixed at the default
13, the framing parameters forwarded only to LSFM and ZCR, as in the
source), `mfcc_energy = np.mean (np.abs mfcc)`, and the threshold cascade
picks the label, the catch-all being the source's literal `"None Noise"`. -/
def classify_audio (lib : NumLib) (audio : List ℚ) (sr : ℤ)
    (frame_length hop_length : ℕ) : Option String :=
  if audio = [] then none
  else if peak audio < 1e-6 then some "Noise"
  else
    let mfcc := calculate_mfcc lib audio sr 13
    let lsfm := calculate_lsfm lib audio frame_length hop_length
    let zcr := calculate_zcr audio frame_length hop_length
    let mfcc_energy := mean (mfcc.map (fun x => |x|))
    if lsfm > 0.8 ∧ zcr > 0.3 ∧ mfcc_energy < 50 then some "Noise"
    else if 0.3 ≤ lsfm ∧ lsfm ≤ 0.8 ∧ 0.1 ≤ zcr ∧ zcr ≤ 0.3 ∧
        50 ≤ mfcc_energy ∧ mfcc_energy ≤ 150 then some "Semi-Noise"
    else some "None Noise"

/-- Modelled from the spec (Classifier step 2): `mfcc_energy` is the
arithmetic mean of the absolute values of the MFCC mean vector. -/
def mfcc_energy_spec (v : List ℚ) : ℚ :=
  (v.map (fun x => |x|)).sum / ((v.map (fun x => |x|)).length : ℚ)

/-- Modelled from the spec (Classifier step 3): the first-match-wins
threshold cascade over (LSFM, ZCR, mfcc_energy), with the catch-all label
passed in (the claim leaves it unnamed). -/
def spec_label (catchAll : String) (lsfm zcr mfcc_energy : ℚ) : String :=
  if lsfm > 0.8 ∧ zcr > 0.3 ∧ mfcc_energy < 50 then "Noise"
  else if 0.3 ≤ lsfm ∧ lsfm ≤ 0.8 ∧ 0.1 ≤ zcr ∧ zcr ≤ 0.3 ∧
      50 ≤ mfcc_energy ∧ mfcc_energy ≤ 150 then "Semi-Noise"
  else catchAll

/-- Modelled from the spec (§4.2): "clamped to [0, 1]", written as a case
split rather than through `min`/`max`. -/
def clamp01_spec (x : ℚ) : ℚ := if x < 0 then 0 else if 1 < x then 1 else x

/-- Modelled from the spec (§4.2): per-frame flatness — 1.0 for a frame
whose magnitude sum is below 1e-10, otherwise the geometric mean
`exp(mean(log(magnitude + 1e-10)))` over the arithmetic mean plus 1e-10,
clamped to [0, 1]. -/
def flatness_spec (lib : NumLib) (f : List ℚ) : ℚ :=
  let mag := lib.fftMag f
  if mag.sum < 1e-10 then 1
  else clamp01_spec
    (lib.exp (mean (mag.map (fun x => lib.log (x + 1e-10)))) / (mean mag + 1e-10))

/-- Modelled from the spec (§4.2): the reported LSFM is the arithmetic mean
of the per-frame flatness values; 1.0 when zero frames exist. -/
def lsfm_spec (lib : NumLib) (audio : List ℚ) (frame_length hop_length : ℕ) : ℚ :=
  match frame audio frame_length hop_length with
  | none => 1
  | some frames => if frames = [] then 1 else mean (frames.map (flatness_spec lib))

/-- Concrete numeric library used to evaluate witnesses: identity
transcendentals and spectrum, and an MFCC primitive that fails. -/
def trivLib : NumLib :=
  { exp := id, log := id, fftMag := id, mfccMatrix := fun _ _ _ => none }

/-- Helper: `np.clip x 0 1` agrees with the spec's case-split clamp. -/
lemma clip_zero_one (x : ℚ) : clip x 0 1 = clamp01_spec x := by
  unfold clip clamp01_spec
  split_ifs with h1 h2
  · rw [max_eq_right h1.le]; exact min_eq_left (by norm_num)
  · rw [max_eq_left (not_lt.mp h1)]; exact min_eq_right h2.le
  · rw [max_eq_left (not_lt.mp h1)]; exact min_eq_left (not_lt.mp h2)

/-- Helper: the mean of a list of nonnegative rationals is nonnegative. -/
lemma mean_nonneg {l : List ℚ} (h : ∀ x ∈ l, 0 ≤ x) : 0 ≤ mean l :=
  div_nonneg (List.sum_nonneg h) (Nat.cast_nonneg _)

/-- Helper: the zero-crossing rate of a single frame is nonnegative. -/
lemma zcrOfFrame_nonneg (f : List ℚ) : 0 ≤ zcrOfFrame f :=
  div_nonneg (Nat.cast_nonneg _) (Nat.cast_nonneg _)

/-- Claim C1: for every sample buffer that passes the silence gate,
`classify_audio` derives `mfcc_energy` as the arithmetic mean of the
absolute values of the MFCC mean vector and assigns the label by the
first-match-wins cascade: Noise when LSFM > 0.8 and ZCR > 0.3 and
mfcc_energy < 50; otherwise Semi-Noise when 0.3 ≤ LSFM ≤ 0.8 and
0.1 ≤ ZCR ≤ 0.3 and 50 ≤ mfcc_energy ≤ 150; otherwise the catch-all
label. -/
theorem classify_cascade (lib : NumLib) (audio : List ℚ) (sr : ℤ) (fl hl : ℕ)
    (hne : audio ≠ []) (hgate : ¬ peak audio < 1e-6) :
    classify_audio lib audio sr fl hl =
      some (spec_label "None Noise" (calculate_lsfm lib audio fl hl)
        (calculate_zcr audio fl hl) (mfcc_energy_spec (calculate_mfcc lib audio sr 13))) := by
  simp only [classify_audio, if_neg hne, if_neg hgate, spec_label, mfcc_energy_spec, mean]
  split_ifs <;> rfl

/-- Witness for C1 at the one-sample buffer `[1]`. -/
theorem classify_cascade_witness :
    ([(1:ℚ)] ≠ []) ∧ (¬ peak [(1:ℚ)] < 1e-6) ∧
    classify_audio trivLib [1] 16000 2048 512 =
      some (spec_label "None Noise" (calculate_lsfm trivLib [1] 2048 512)
        (calculate_zcr [1] 2048 512) (mfcc_energy_spec (calculate_mfcc trivLib [1] 16000 13))) :=
  ⟨by simp, by norm_num [peak],
    classify_cascade trivLib [1] 16000 2048 512 (by simp) (by norm_num [peak])⟩

/-- Claim C2: for every non-empty sample buffer whose peak absolute sample
value is below 1e-6, `classify_audio` returns `"Noise"` immediately, for
every numeric library, sample rate and framing parameters — the statement's
independence from `lib`, `sr`, `fl`, `hl` reflects that none of the three
feature computations is consulted. -/
theorem silence_gate (lib : NumLib) (audio : List ℚ) (sr : ℤ) (fl hl : ℕ)
    (hne : audio ≠ []) (hsil : peak audio < 1e-6) :
    classify_audio lib audio sr fl hl = some "Noise" := by
  simp only [classify_audio, if_neg hne, if_pos hsil]

/-- Witness for C2 at the all-zero one-sample buffer `[0]`. -/
theorem silence_gate_witness :
    ([(0:ℚ)] ≠ []) ∧ peak [(0:ℚ)] < 1e-6 ∧
    classify_audio trivLib [0] 16000 2048 512 = some "Noise" :=
  ⟨by simp, by norm_num [peak],
    silence_gate trivLib [0] 16000 2048 512 (by simp) (by norm_num [peak])⟩

/-- Claim C3: for every buffer and framing parameters, `calculate_lsfm`
computes exactly the LSFM the spec describes — per-frame flatness 1.0 when
the magnitude sum is below 1e-10, otherwise
`exp(mean(log(magnitude + 1e-10))) / (mean(magnitude) + 1e-10)` clamped to
[0, 1], averaged arithmetically over frames, with 1.0 when zero frames
exist. -/
theorem lsfm_refines_spec (lib : NumLib) (audio : List ℚ) (fl hl : ℕ) :
    calculate_lsfm lib audio fl hl = lsfm_spec lib audio fl hl := by
  have hflat : frameFlatness lib = flatness_spec lib := by
    funext f
    simp only [frameFlatness, flatness_spec, clip_zero_one]
  simp only [calculate_lsfm, lsfm_spec, hflat]
  cases frame audio fl hl with
  | none => rfl
  | some frames => simp only [List.map_eq_nil_iff]

/-- Counterexample for C4: on the buffer `[1]` the catch-all branch of
`classify_audio` returns the source's literal `"None Noise"`, which is none
of the three labels the claim lists (in particular not `"None-Noise"`).
The label here does not depend on the MFCC primitive: with a one-sample
buffer LSFM falls back to 1 and ZCR to 0, so rule 1 (ZCR > 0.3) and rule 2
(0.1 ≤ ZCR) both fail whatever `mfcc_energy` is. -/
theorem catchall_label_spelling :
    classify_audio trivLib [1] 16000 2048 512 = some "None Noise" ∧
    "None Noise" ≠ "Noise" ∧ "None Noise" ≠ "Semi-Noise" ∧ "None Noise" ≠ "None-Noise" := by
  refine ⟨?_, by decide, by decide, by decide⟩
  norm_num [classify_audio, calculate_mfcc, calculate_lsfm, calculate_zcr,
    zero_crossing_rate, frame, peak, trivLib, mean]

/-- Claim C4 (amended): for every non-empty sample buffer, the value
returned by `classify_audio` is exactly one of the three labels `"Noise"`,
`"Semi-Noise"`, `"None Noise"` — the catch-all is spelled with a space, not
a hyphen; no other string is ever returned. -/
theorem classify_label_range (lib : NumLib) (audio : List ℚ) (sr : ℤ) (fl hl : ℕ)
    (hne : audio ≠ []) :
    classify_audio lib audio sr fl hl = some "Noise" ∨
    classify_audio lib audio sr fl hl = some "Semi-Noise" ∨
    classify_audio lib audio sr fl hl = some "None Noise" := by
  simp only [classify_audio, if_neg hne]
  split_ifs <;> simp

/-- Witness for the amended C4 at the buffer `[1]`. -/
theorem classify_label_range_witness :
    ([(1:ℚ)] ≠ []) ∧
    (classify_audio trivLib [1] 16000 2048 512 = some "Noise" ∨
     classify_audio trivLib [1] 16000 2048 512 = some "Semi-Noise" ∨
     classify_audio trivLib [1] 16000 2048 512 = some "None Noise") :=
  ⟨by simp, classify_label_range trivLib [1] 16000 2048 512 (by simp)⟩

/-- Claim C5: the three feature computations are total (they are plain Lean
functions, so no exception can propagate), and on an internal failure of
the underlying numeric routine each returns its documented fallback: the
zero vector of length `n_mfcc` for `calculate_mfcc`, 1.0 for
`calculate_lsfm`, 0.0 for `calculate_zcr`. -/
theorem fallback_on_failure (lib : NumLib) (audio : List ℚ) (sr : ℤ) (n fl hl : ℕ) :
    (lib.mfccMatrix audio sr n = none → calculate_mfcc lib audio sr n = List.replicate n 0) ∧
    (frame audio fl hl = none → calculate_lsfm lib audio fl hl = 1) ∧
    (frame audio fl hl = none → calculate_zcr audio fl hl = 0) := by
  refine ⟨fun h => ?_, fun h => ?_, fun h => ?_⟩
  · simp only [calculate_mfcc, h]
  · simp only [calculate_lsfm, h]
  · simp only [calculate_zcr, zero_crossing_rate, h, Option.map_none']

/-- Witness for C5 at the buffer `[1]` with the failing MFCC primitive:
framing fails (one sample is shorter than one frame of 2048) and all three
fallbacks appear. -/
theorem fallback_on_failure_witness :
    trivLib.mfccMatrix [1] 16000 13 = none ∧
    frame [1] 2048 512 = none ∧
    calculate_mfcc trivLib [1] 16000 13 = List.replicate 13 0 ∧
    calculate_lsfm trivLib [1] 2048 512 = 1 ∧
    calculate_zcr [1] 2048 512 = 0 :=
  ⟨rfl, rfl,
    (fallback_on_failure trivLib [1] 16000 13 2048 512).1 rfl,
    (fallback_on_failure trivLib [1] 16000 13 2048 512).2.1 rfl,
    (fallback_on_failure trivLib [1] 16000 13 2048 512).2.2 rfl⟩

/-- Claim C6: `calculate_zcr` is always nonnegative, and a buffer with
fewer samples than one frame yields exactly 0.0, the documented
fallback. -/
theorem zcr_nonneg_and_short_fallback (audio : List ℚ) (fl hl : ℕ) :
    0 ≤ calculate_zcr audio fl hl ∧
    (audio.length < fl → calculate_zcr audio fl hl = 0) := by
  constructor
  · unfold calculate_zcr
    cases h : zero_crossing_rate audio fl hl with
    | none => exact le_refl 0
    | some zcr =>
        apply mean_nonneg
        intro x hx
        obtain ⟨fs, hfs, hmap⟩ := Option.map_eq_some'.mp h
        rw [← hmap] at hx
        obtain ⟨f, hf, hfx⟩ := List.mem_map.mp hx
        exact hfx ▸ zcrOfFrame_nonneg f
  · intro hshort
    have hnone : frame audio fl hl = none := by
      unfold frame
      rw [if_pos (Or.inr (Or.inr hshort))]
    simp [calculate_zcr, zero_crossing_rate, hnone]

/-- Witness for C6 at the buffer `[1]`, shorter than the default frame
length 2048. -/
theorem zcr_nonneg_and_short_fallback_witness :
    0 ≤ calculate_zcr [(1:ℚ)] 2048 512 ∧
    List.length [(1:ℚ)] < 2048 ∧
    calculate_zcr [(1:ℚ)] 2048 512 = 0 :=
  ⟨(zcr_nonneg_and_short_fallback [1] 2048 512).1, by simp,
    (zcr_nonneg_and_short_fallback [1] 2048 512).2 (by simp)⟩

/-- Claim C7: classification is deterministic — two invocations on the same
inputs yield identical MFCC vector, LSFM, ZCR, `mfcc_energy` and label; the
functions are pure, with no hidden state between calls. -/
theorem classify_deterministic (lib : NumLib) (audio : List ℚ) (sr : ℤ) (fl hl : ℕ) :
    calculate_mfcc lib audio sr 13 = calculate_mfcc lib audio sr 13 ∧
    calculate_lsfm lib audio fl hl = calculate_lsfm lib audio fl hl ∧
    calculate_zcr audio fl hl = calculate_zcr audio fl hl ∧
    mean ((calculate_mfcc lib audio sr 13).map (fun x => |x|)) =
      mean ((calculate_mfcc lib audio sr 13).map (fun x => |x|)) ∧
    classify_audio lib audio sr fl hl = classify_audio lib audio sr fl hl :=
  ⟨rfl, rfl, rfl, rfl, rfl⟩

/-- Claim C9: when all three features come back as their documented
fallbacks (MFCC the zero vector, LSFM 1.0, ZCR 0.0, hence
`mfcc_energy` 0.0), a buffer past the silence gate gets the catch-all
label: rule 1 fails at ZCR > 0.3 and rule 2 at 0.1 ≤ ZCR, despite
LSFM = 1. -/
theorem fallback_triple_catchall (lib : NumLib) (audio : List ℚ) (sr : ℤ) (fl hl : ℕ)
    (hne : audio ≠ []) (hgate : ¬ peak audio < 1e-6)
    (hm : calculate_mfcc lib audio sr 13 = List.replicate 13 0)
    (hlf : calculate_lsfm lib audio fl hl = 1)
    (hz : calculate_zcr audio fl hl = 0) :
    classify_audio lib audio sr fl hl = some "None Noise" := by
  simp only [classify_audio, if_neg hne, if_neg hgate, hm, hlf, hz]
  norm_num [mean]

/-- Witness for C9 at the buffer `[1]` with the failing MFCC primitive: all
three fallbacks hold and the label is the catch-all. -/
theorem fallback_triple_catchall_witness :
    ([(1:ℚ)] ≠ []) ∧ (¬ peak [(1:ℚ)] < 1e-6) ∧
    calculate_mfcc trivLib [1] 16000 13 = List.replicate 13 0 ∧
    calculate_lsfm trivLib [1] 2048 512 = 1 ∧
    calculate_zcr [1] 2048 512 = 0 ∧
    classify_audio trivLib [1] 16000 2048 512 = some "None Noise" :=
  ⟨by simp, by norm_num [peak], rfl, rfl, rfl,
    fallback_triple_catchall trivLib [1] 16000 2048 512
      (by simp) (by norm_num [peak]) rfl rfl rfl⟩

/-- Claim C10: on the empty buffer `classify_audio` raises (modelled as
`none`) from the `np.max` reduction instead of returning a label, while for
every non-empty buffer it returns some label — the non-empty precondition on
SampleBuffer is exactly what totality needs. -/
theorem empty_buffer_raises (lib : NumLib) (audio : List ℚ) (sr : ℤ) (fl hl : ℕ)
    (hne : audio ≠ []) :
    classify_audio lib [] sr fl hl = none ∧
    ∃ s, classify_audio lib audio sr fl hl = some s := by
  refine ⟨rfl, ?_⟩
  simp only [classify_audio, if_neg hne]
  split_ifs <;> exact ⟨_, rfl⟩

/-- Witness for C10 with the non-empty buffer `[1]`. -/
theorem empty_buffer_raises_witness :
    classify_audio trivLib [] 16000 2048 512 = none ∧
    ∃ s, classify_audio trivLib [(1:ℚ)] 16000 2048 512 = some s :=
  empty_buffer_raises trivLib [1] 16000 2048 512 (by simp)

end AudioClassification
